import Mathlib

/-!
# Verification of the diu_sim sensor simulator core

Shallow embedding of `main.go`: the channel table, the per-sensor value
generator, the rate generator, the per-sensor publish loop of
`publishSensorData` as a state machine, and the validation/spawn pipeline
of `main` / `startSensorSimulations`.

Go `float64` values are modelled as rationals (`ℚ`), with the pseudo-random
draws of `rand.Float64()` (values in `[0, 1)`) passed in explicitly as
parameters. Go `int` is modelled as `ℤ`; Go's `%` operator (truncated
remainder) is `Int.tmod`.
-/

namespace DiuSim

/-- `var channels = []string{"temperature", "pressure", "humidity"}` (main.go line 27). -/
def channels : List String := ["temperature", "pressure", "humidity"]

/-- Go's `%` on `int` is truncated remainder: `Int.tmod`. -/
def goMod (a b : ℤ) : ℤ := Int.tmod a b

/-- The channel lookup `channels[sensorID%len(channels)]` (main.go line 62).
Go panics when the index is out of range `[0, len)`; the panic is modelled
as `none`. -/
def channelOf (sensorID : ℤ) : Option String :=
  let j := goMod sensorID (channels.length : ℤ)
  if h : 0 ≤ j ∧ j < (channels.length : ℤ) then
    some (channels.get ⟨j.toNat, by omega⟩)
  else
    none

/-- `generateSensorValue` (main.go lines 47-59): the switch on the channel
name, with `u` standing for the `r.Float64()` draw in `[0, 1)`. -/
def generateSensorValue (channel : String) (u : ℚ) : ℚ :=
  if channel = "temperature" then 25 + u * 10
  else if channel = "pressure" then 8/10 + u * (4/10)
  else if channel = "humidity" then 70 + u * 20
  else u * 100

/-- The rate computation `rate = minRate + r.Float64()*(maxRate-minRate)`
(main.go lines 68 and 84). -/
def nextRate (minRate maxRate u : ℚ) : ℚ := minRate + u * (maxRate - minRate)

/-- The tick interval `time.Duration(float64(time.Second) / rate)` expressed
in seconds (main.go lines 69 and 85). -/
def nextInterval (minRate maxRate u : ℚ) : ℚ := 1 / nextRate minRate maxRate u

/-- `fmt.Sprintf("%03d", n)` for a nonnegative index: decimal digits
zero-padded on the left to width 3. -/
def pad3 (n : ℕ) : String :=
  let s := toString n
  String.mk (List.replicate (3 - s.length) '0') ++ s

/-- `sensorName := fmt.Sprintf("%s:sensor_%03d", channel, sensorID)`
(main.go line 63). -/
def sensorName (channel : String) (sensorID : ℕ) : String :=
  channel ++ ":sensor_" ++ pad3 sensorID

/-- `message := fmt.Sprintf("%s=%f", sensorName, value)` (main.go line 74),
with the `%f` rendering of the float64 value abstracted as `valueStr`. -/
def buildMessage (channel : String) (sensorID : ℕ) (valueStr : String) : String :=
  sensorName channel sensorID ++ "=" ++ valueStr

/-- The message format as the spec states it: the single template
`"<channel>:sensor_%03d=<value>"`. -/
def specMessageFormat (channel : String) (sensorID : ℕ) (valueStr : String) : String :=
  channel ++ ":sensor_" ++ pad3 sensorID ++ "=" ++ valueStr

/-! ## The publish loop of `publishSensorData` as a state machine -/

/-- The two lifecycle states of a SensorPublisher: the loop body is either
still iterating (`Running`) or has returned (`Stopped`). -/
inductive PubState where
  | Running
  | Stopped
deriving DecidableEq, Repr

/-- The mutable loop state of `publishSensorData`: the lifecycle phase and
the current rearmed rate (`rate` in the Go code). -/
structure LoopState where
  phase : PubState
  rate : ℚ
deriving DecidableEq, Repr

/-- The nondeterministic inputs one loop iteration consumes: the
`r.Float64()` draw for the value, the draw for the next rate, whether
`client.Publish(...).Err()` returned nil, and whether `ctx.Done()` is ready
at the `select` (the cancellation observation). -/
structure TickInput where
  uValue : ℚ
  uRate : ℚ
  publishOk : Bool
  ctxDone : Bool
deriving DecidableEq, Repr

/-- The two log lines of the loop body (main.go lines 78 and 80). -/
inductive LogEvent where
  | publishError (sensor : String)
  | published (sensor : String)
deriving DecidableEq, Repr

/-- What one loop iteration emits: how many publish attempts it made and
its log output. -/
structure TickOutput where
  attempts : ℕ
  log : List LogEvent
deriving DecidableEq, Repr

/-- One iteration of the `for range ticker.C` body (main.go lines 72-95):
while `Running`, generate a value, attempt exactly one publish (logging
success or failure, never retrying), recompute the rate and rearm, and
only then check `ctx.Done()` — returning (`Stopped`) iff it is ready.
A `Stopped` task's loop has returned: it processes nothing. -/
def tickStep (minRate maxRate : ℚ) (name : String) (s : LoopState)
    (inp : TickInput) : LoopState × TickOutput :=
  match s.phase with
  | PubState.Stopped => (s, ⟨0, []⟩)
  | PubState.Running =>
      let log := if inp.publishOk then [LogEvent.published name]
                 else [LogEvent.publishError name]
      let newRate := nextRate minRate maxRate inp.uRate
      let phase := if inp.ctxDone then PubState.Stopped else PubState.Running
      (⟨phase, newRate⟩, ⟨1, log⟩)

/-- Run the publish loop over a sequence of tick inputs, returning the final
state and the total number of publish attempts made. -/
def runLoop (minRate maxRate : ℚ) (name : String) :
    LoopState → List TickInput → LoopState × ℕ
  | s, [] => (s, 0)
  | s, inp :: rest =>
      let step := tickStep minRate maxRate name s inp
      let tail := runLoop minRate maxRate name step.1 rest
      (tail.1, step.2.attempts + tail.2)

/-- The state `publishSensorData` starts in (main.go lines 65-69): `Running`,
with an initial rate drawn before the loop. -/
def initLoopState (minRate maxRate u0 : ℚ) : LoopState :=
  ⟨PubState.Running, nextRate minRate maxRate u0⟩

/-! ## `main`: validation, spawning, shutdown -/

/-- The two fatal configuration errors `main` can report
(main.go lines 150-155). -/
inductive ConfigError where
  | nonPositiveRate
  | minGreaterThanMax
deriving DecidableEq, Repr

/-- The loop `for i := 0; i < numSensors; i++` of `startSensorSimulations`
(main.go lines 101-103): the indices of the spawned publisher tasks. -/
def spawnedIds (numSensors : ℤ) : List ℤ :=
  (List.range numSensors.toNat).map Int.ofNat

/-- The validation-and-spawn pipeline of `main` (main.go lines 149-162):
rates are validated first — `minRate <= 0 || maxRate <= 0` then
`minRate > maxRate`, each fatal with its own message — and only when both
checks pass is `startSensorSimulations` reached. `numSensors` itself is
never validated. -/
def runMain (numSensors : ℤ) (minRate maxRate : ℚ) :
    Except ConfigError (List ℤ) :=
  if minRate ≤ 0 ∨ maxRate ≤ 0 then Except.error ConfigError.nonPositiveRate
  else if minRate > maxRate then Except.error ConfigError.minGreaterThanMax
  else Except.ok (spawnedIds numSensors)

/-- The shutdown wait of `main` (main.go line 172): `time.Sleep(time.Second)`
after `cancel()`, in seconds. -/
def shutdownWaitSeconds : ℚ := 1

/-- The grace period the design names: one second. -/
def gracePeriodSeconds : ℚ := 1

/-- Total publish attempts across a set of spawned tasks, each task run on
its own tick-input trace from its own initial state. -/
def totalAttempts (minRate maxRate : ℚ) (ids : List ℤ)
    (u0 : ℤ → ℚ) (ticks : ℤ → List TickInput) : ℕ :=
  (ids.map (fun id =>
    (runLoop minRate maxRate (toString id)
      (initLoopState minRate maxRate (u0 id)) (ticks id)).2)).sum

/-- The fixed ordered kind list exactly as the spec words it:
`fixedKindList = [temperature, pressure, humidity]`. -/
def fixedKindList : List String := ["temperature", "pressure", "humidity"]

/-- Truncated remainder agrees with the Nat remainder on nonnegative input. -/
theorem goMod_ofNat (i : ℕ) (b : ℕ) (hb : 0 < b) :
    goMod (i : ℤ) (b : ℤ) = ((i % b : ℕ) : ℤ) := by
  unfold goMod
  rw [Int.tmod_eq_emod (by positivity) (by positivity)]
  push_cast
  rfl

/-- C5: For every sensor index `i ≥ 0`, the channel assigned to sensor `i`
equals `fixedKindList[i mod 3]` with
`fixedKindList = [temperature, pressure, humidity]` in that fixed order,
deterministically: `channelOf` is a pure function of the index alone. -/
theorem channel_is_index_mod_three (i : ℕ) :
    channelOf (i : ℤ) = some (fixedKindList.getD (i % 3) "") := by
  have hb : goMod (i : ℤ) 3 = ((i % 3 : ℕ) : ℤ) := goMod_ofNat i 3 (by norm_num)
  have h : i % 3 = 0 ∨ i % 3 = 1 ∨ i % 3 = 2 := by omega
  rcases h with h | h | h <;>
    rw [h] at hb <;>
    simp [channelOf, channels, fixedKindList, hb, h]

/-- C10: every index the spawn loop produces is nonnegative, the channel
lookup succeeds (no panic) for every nonnegative index, and the lookup at
the negative index `-1` is out of bounds — nonnegativity of the spawned
indices is the guarding invariant. -/
theorem channel_lookup_in_bounds (i n id : ℤ)
    (hi : 0 ≤ i) (hid : id ∈ spawnedIds n) :
    (channelOf i).isSome = true ∧ 0 ≤ id ∧ channelOf (-1) = none := by
  refine ⟨?_, ?_, by decide⟩
  · have h0 : 0 ≤ goMod i (channels.length : ℤ) := by
      unfold goMod
      rw [Int.tmod_eq_emod hi (by simp [channels])]
      exact Int.emod_nonneg i (by simp [channels])
    have h1 : goMod i (channels.length : ℤ) < (channels.length : ℤ) := by
      unfold goMod
      rw [Int.tmod_eq_emod hi (by simp [channels])]
      exact Int.emod_lt_of_pos i (by simp [channels])
    simp [channelOf, h0, h1]
  · obtain ⟨k, -, hk⟩ := List.mem_map.1 hid
    subst hk
    exact Int.ofNat_nonneg k

/-- C10 witness: the lookup succeeds at index 5, index 2 is among the
indices spawned for three sensors, and the direct negative lookup fails. -/
theorem channel_lookup_in_bounds_witness :
    (channelOf 5).isSome = true ∧ (0 : ℤ) ≤ 2 ∧ channelOf (-1) = none :=
  channel_lookup_in_bounds 5 3 2 (by norm_num) (by decide)

/-- C7: the message built in two `Sprintf` steps (first the sensor name,
then appending `=<value>`) is exactly the single template
`"<channel>:sensor_%03d=<value>"` of the spec, and `%03d` zero-pads every
index whose decimal form has at most three digits to exactly three
characters. -/
theorem message_wire_format (channel : String) (sensorID : ℕ) (valueStr : String) :
    buildMessage channel sensorID valueStr = specMessageFormat channel sensorID valueStr
    ∧ (∀ id : ℕ, (toString id).length ≤ 3 → (pad3 id).length = 3) := by
  refine ⟨rfl, ?_⟩
  intro id hlen
  unfold pad3
  rw [String.length_append]
  simp only [String.length_mk, List.length_replicate]
  omega

/-- C7 witness: concrete message for sensor 7 on channel temperature, with
the three-character zero padding. -/
theorem message_wire_format_witness :
    buildMessage "temperature" 7 "25.500000" =
      specMessageFormat "temperature" 7 "25.500000"
    ∧ (pad3 7).length = 3 :=
  ⟨(message_wire_format "temperature" 7 "25.500000").1,
   (message_wire_format "temperature" 7 "25.500000").2 7 (by decide)⟩

/-- C4: for valid bounds `0 < minRate ≤ maxRate` and any draw `u ∈ [0, 1]`,
the inter-emission interval `1 / (minRate + u*(maxRate-minRate))` lies in
`[1/maxRate, 1/minRate]` seconds. -/
theorem interval_within_bounds (minRate maxRate u : ℚ)
    (hmin : 0 < minRate) (hle : minRate ≤ maxRate) (hu0 : 0 ≤ u) (hu1 : u ≤ 1) :
    1 / maxRate ≤ nextInterval minRate maxRate u
    ∧ nextInterval minRate maxRate u ≤ 1 / minRate := by
  have hlo : minRate ≤ nextRate minRate maxRate u := by
    have : 0 ≤ u * (maxRate - minRate) := mul_nonneg hu0 (by linarith)
    unfold nextRate
    linarith
  have hhi : nextRate minRate maxRate u ≤ maxRate := by
    have : u * (maxRate - minRate) ≤ 1 * (maxRate - minRate) :=
      mul_le_mul_of_nonneg_right hu1 (by linarith)
    unfold nextRate
    linarith
  have hpos : 0 < nextRate minRate maxRate u := lt_of_lt_of_le hmin hlo
  unfold nextInterval
  exact ⟨one_div_le_one_div_of_le hpos hhi, one_div_le_one_div_of_le hmin hlo⟩

/-- C4 witness: with `minRate = 4`, `maxRate = 5`, `u = 1/2`, the interval
lies in `[1/5, 1/4]`. -/
theorem interval_within_bounds_witness :
    1 / 5 ≤ nextInterval 4 5 (1/2) ∧ nextInterval 4 5 (1/2) ≤ 1 / 4 := by
  have h := interval_within_bounds 4 5 (1/2)
    (by norm_num) (by norm_num) (by norm_num) (by norm_num)
  simpa using h

/-- C6: for every draw `u ∈ [0, 1)`, the generated reading lies in the fixed
range of the sensor's measurement kind — temperature in `[25, 35]`, pressure
in `[0.8, 1.2]`, humidity in `[70, 90]` — and any kind outside the channel
table falls back to `[0, 100]`. -/
theorem value_within_kind_range (u : ℚ) (ch : String)
    (hu0 : 0 ≤ u) (hu1 : u < 1) (hch : ch ∉ channels) :
    (25 ≤ generateSensorValue "temperature" u ∧ generateSensorValue "temperature" u ≤ 35)
    ∧ (8/10 ≤ generateSensorValue "pressure" u ∧ generateSensorValue "pressure" u ≤ 12/10)
    ∧ (70 ≤ generateSensorValue "humidity" u ∧ generateSensorValue "humidity" u ≤ 90)
    ∧ (0 ≤ generateSensorValue ch u ∧ generateSensorValue ch u ≤ 100) := by
  have h1 : generateSensorValue "temperature" u = 25 + u * 10 := rfl
  have h2 : generateSensorValue "pressure" u = 8/10 + u * (4/10) := rfl
  have h3 : generateSensorValue "humidity" u = 70 + u * 20 := rfl
  simp only [channels, List.mem_cons, List.not_mem_nil, or_false, not_or] at hch
  obtain ⟨hc1, hc2, hc3⟩ := hch
  have h4 : generateSensorValue ch u = u * 100 := by
    simp [generateSensorValue, hc1, hc2, hc3]
  refine ⟨⟨?_, ?_⟩, ⟨?_, ?_⟩, ⟨?_, ?_⟩, ⟨?_, ?_⟩⟩ <;>
    simp only [h1, h2, h3, h4] <;> nlinarith

/-- C6 witness: at `u = 1/2` with the unknown kind `"voltage"`, every
generated value lies in its kind's range. -/
theorem value_within_kind_range_witness :
    (25 ≤ generateSensorValue "temperature" (1/2)
      ∧ generateSensorValue "temperature" (1/2) ≤ 35)
    ∧ (8/10 ≤ generateSensorValue "pressure" (1/2)
      ∧ generateSensorValue "pressure" (1/2) ≤ 12/10)
    ∧ (70 ≤ generateSensorValue "humidity" (1/2)
      ∧ generateSensorValue "humidity" (1/2) ≤ 90)
    ∧ (0 ≤ generateSensorValue "voltage" (1/2)
      ∧ generateSensorValue "voltage" (1/2) ≤ 100) :=
  value_within_kind_range (1/2) "voltage" (by norm_num) (by norm_num) (by decide)

/-- A `Stopped` task processes no further ticks and makes no further
publish attempts: running any remaining tick sequence leaves the state
unchanged and attempts nothing. -/
theorem runLoop_stopped (minRate maxRate : ℚ) (name : String)
    (s : LoopState) (ticks : List TickInput) (hs : s.phase = PubState.Stopped) :
    runLoop minRate maxRate name s ticks = (s, 0) := by
  induction ticks with
  | nil => rfl
  | cons inp rest ih =>
      obtain ⟨ph, r⟩ := s
      simp only [LoopState.mk.injEq] at hs ⊢
      cases ph with
      | Running => simp at hs
      | Stopped => simp [runLoop, tickStep, ih]

/-- C1: a `Running` task that observes the cancellation signal at the tick
boundary transitions to `Stopped`, and the current tick's publish attempt
completes (exactly one attempt) before that check; a `Stopped` task
processes no further ticks and publishes nothing ever after. -/
theorem cancellation_stops_loop (minRate maxRate : ℚ) (name : String)
    (s s2 : LoopState) (inp : TickInput) (ticks : List TickInput)
    (hrun : s.phase = PubState.Running) (hdone : inp.ctxDone = true)
    (hstop : s2.phase = PubState.Stopped) :
    (tickStep minRate maxRate name s inp).1.phase = PubState.Stopped
    ∧ (tickStep minRate maxRate name s inp).2.attempts = 1
    ∧ runLoop minRate maxRate name s2 ticks = (s2, 0) := by
  refine ⟨?_, ?_, runLoop_stopped minRate maxRate name s2 ticks hstop⟩ <;>
  · obtain ⟨ph, r⟩ := s
    cases ph with
    | Running => simp [tickStep, hdone]
    | Stopped => simp at hrun

/-- C1 witness: a running task at rate 4 that sees `ctx.Done()` on a tick
stops after exactly one publish attempt, and a stopped task ignores a
further tick. -/
theorem cancellation_stops_loop_witness :
    (tickStep 4 5 "temperature:sensor_000" ⟨PubState.Running, 4⟩
      ⟨0, 0, true, true⟩).1.phase = PubState.Stopped
    ∧ (tickStep 4 5 "temperature:sensor_000" ⟨PubState.Running, 4⟩
      ⟨0, 0, true, true⟩).2.attempts = 1
    ∧ runLoop 4 5 "temperature:sensor_000" ⟨PubState.Stopped, 4⟩
      [⟨0, 0, true, false⟩] = (⟨PubState.Stopped, 4⟩, 0) :=
  cancellation_stops_loop 4 5 "temperature:sensor_000"
    ⟨PubState.Running, 4⟩ ⟨PubState.Stopped, 4⟩ ⟨0, 0, true, true⟩
    [⟨0, 0, true, false⟩] rfl rfl rfl

/-- C8: a publish error on a tick does not change the publisher's state —
the task stays `Running` (absent cancellation), the tick counts as exactly
one attempt with the error logged, and only an observed cancellation can
ever move the step to `Stopped`. -/
theorem publish_error_keeps_running (minRate maxRate : ℚ) (name : String)
    (s : LoopState) (inp inp2 : TickInput)
    (hrun : s.phase = PubState.Running) (herr : inp.publishOk = false)
    (hnd : inp.ctxDone = false) :
    (tickStep minRate maxRate name s inp).1.phase = PubState.Running
    ∧ (tickStep minRate maxRate name s inp).2.attempts = 1
    ∧ (tickStep minRate maxRate name s inp).2.log = [LogEvent.publishError name]
    ∧ ((tickStep minRate maxRate name s inp2).1.phase = PubState.Stopped →
        inp2.ctxDone = true) := by
  obtain ⟨ph, r⟩ := s
  cases ph with
  | Stopped => simp at hrun
  | Running =>
      refine ⟨by simp [tickStep, hnd], by simp [tickStep], by simp [tickStep, herr], ?_⟩
      intro hstop
      by_contra hne
      rw [Bool.not_eq_true] at hne
      simp [tickStep, hne] at hstop

/-- C8 witness: a failed publish with no cancellation leaves the task
running, counted as one attempted tick with an error log line, and a
stopping step implies the cancellation flag was set. -/
theorem publish_error_keeps_running_witness :
    (tickStep 4 5 "pressure:sensor_001" ⟨PubState.Running, 4⟩
      ⟨0, 0, false, false⟩).1.phase = PubState.Running
    ∧ (tickStep 4 5 "pressure:sensor_001" ⟨PubState.Running, 4⟩
      ⟨0, 0, false, false⟩).2.attempts = 1
    ∧ (tickStep 4 5 "pressure:sensor_001" ⟨PubState.Running, 4⟩
      ⟨0, 0, false, false⟩).2.log = [LogEvent.publishError "pressure:sensor_001"]
    ∧ ((tickStep 4 5 "pressure:sensor_001" ⟨PubState.Running, 4⟩
      ⟨0, 0, true, true⟩).1.phase = PubState.Stopped →
        (TickInput.mk 0 0 true true).ctxDone = true) :=
  publish_error_keeps_running 4 5 "pressure:sensor_001"
    ⟨PubState.Running, 4⟩ ⟨0, 0, false, false⟩ ⟨0, 0, true, true⟩ rfl rfl rfl

/-- C2: any violation of the rate constraints — `minRate ≤ 0`, or
`maxRate ≤ 0`, or `minRate > maxRate` — makes `main` fail with the error
naming the violated constraint, before any publisher is spawned: the
result carries no spawned task at all. -/
theorem invalid_rates_rejected (numSensors : ℤ) (minRate maxRate : ℚ)
    (h : minRate ≤ 0 ∨ maxRate ≤ 0 ∨ maxRate < minRate) :
    runMain numSensors minRate maxRate =
      Except.error (if minRate ≤ 0 ∨ maxRate ≤ 0 then ConfigError.nonPositiveRate
        else ConfigError.minGreaterThanMax) := by
  by_cases hp : minRate ≤ 0 ∨ maxRate ≤ 0
  · simp [runMain, hp]
  · have hlt : minRate > maxRate := by
      push_neg at hp
      rcases h with h | h | h
      · linarith [hp.1]
      · linarith [hp.2]
      · exact h
    simp [runMain, hp, hlt]

/-- C2 witness: `minRate = 0` is rejected as a non-positive rate and
`minRate = 5 > maxRate = 4` as an inverted range, each before spawning. -/
theorem invalid_rates_rejected_witness :
    runMain 7 0 4 = Except.error ConfigError.nonPositiveRate
    ∧ runMain 7 5 4 = Except.error ConfigError.minGreaterThanMax := by
  constructor
  · have h := invalid_rates_rejected 7 0 4 (Or.inl le_rfl)
    simpa using h
  · have h := invalid_rates_rejected 7 5 4 (Or.inr (Or.inr (by norm_num)))
    rw [h]
    norm_num

/-- C3 counterexample: a negative sensor count is not a fatal configuration
error — with valid rates, `main` proceeds normally, spawning zero tasks,
instead of terminating with an error. -/
theorem negative_count_not_fatal :
    runMain (-1) 4 4 = Except.ok [] := by
  norm_num [runMain, spawnedIds]

/-- C3 amended: a nonpositive `sensorCount` is never validated and never
fatal; with valid rates the process starts normally, the spawn loop runs
zero times, and nothing is published. -/
theorem nonpositive_count_spawns_nothing (numSensors : ℤ) (minRate maxRate : ℚ)
    (hn : numSensors ≤ 0) (hmin : 0 < minRate) (hle : minRate ≤ maxRate) :
    runMain numSensors minRate maxRate = Except.ok []
    ∧ (∀ u0 ticks, totalAttempts minRate maxRate [] u0 ticks = 0) := by
  have h1 : ¬(minRate ≤ 0 ∨ maxRate ≤ 0) := by
    push_neg
    constructor <;> linarith
  have h2 : ¬(minRate > maxRate) := not_lt.2 hle
  refine ⟨?_, fun u0 ticks => rfl⟩
  simp [runMain, h1, h2, spawnedIds, Int.toNat_of_nonpos hn]

/-- C3 amended witness: sensor count `-2` with rates `4 ≤ 5` starts cleanly
with zero tasks. -/
theorem nonpositive_count_spawns_nothing_witness :
    runMain (-2) 4 5 = Except.ok []
    ∧ (∀ u0 ticks, totalAttempts 4 5 [] u0 ticks = 0) :=
  nonpositive_count_spawns_nothing (-2) 4 5 (by norm_num) (by norm_num) (by norm_num)

/-- C9: with `sensorCount = 0` and valid rates the supervisor starts
cleanly, spawns zero publisher tasks, makes zero publish attempts however
the traces run, and the shutdown wait is exactly the fixed one-second
grace period. -/
theorem zero_sensors_clean_start (minRate maxRate : ℚ)
    (u0 : ℤ → ℚ) (ticks : ℤ → List TickInput)
    (hmin : 0 < minRate) (hle : minRate ≤ maxRate) :
    runMain 0 minRate maxRate = Except.ok (spawnedIds 0)
    ∧ spawnedIds 0 = []
    ∧ totalAttempts minRate maxRate (spawnedIds 0) u0 ticks = 0
    ∧ shutdownWaitSeconds = gracePeriodSeconds := by
  have h1 : ¬(minRate ≤ 0 ∨ maxRate ≤ 0) := by
    push_neg
    constructor <;> linarith
  have h2 : ¬(minRate > maxRate) := not_lt.2 hle
  exact ⟨by simp [runMain, h1, h2], rfl, rfl, rfl⟩

/-- C9 witness: at rates `4 ≤ 4`, zero sensors start cleanly with no spawn,
no attempts, and a one-second shutdown wait. -/
theorem zero_sensors_clean_start_witness :
    runMain 0 4 4 = Except.ok (spawnedIds 0)
    ∧ spawnedIds 0 = []
    ∧ totalAttempts 4 4 (spawnedIds 0) (fun _ => 0) (fun _ => []) = 0
    ∧ shutdownWaitSeconds = gracePeriodSeconds :=
  zero_sensors_clean_start 4 4 (fun _ => 0) (fun _ => []) (by norm_num) (by norm_num)

end DiuSim
